import Mathlib

set_option linter.unusedVariables false

/-!
Verification development for the ICES ingestion service.

The definitions below are a shallow embedding of the Go sources:
the Redis-backed deduplication filter (internal/dedup/dedup.go), the
Graph message fetcher (graph fetcher and parser), the Postgres-backed
subscription store and lifecycle manager (package subscription), the
delta synchroniser (internal/delta/syncer.go) and the webhook handler
(package webhook). Machine state is made explicit (association lists
for Redis and Postgres rows, traces of side effects for HTTP and queue
activity); time is an explicit integer parameter.
-/

/-- An entry in the Redis-modelled key-value store: the stored value together
with its absolute expiry time (in seconds). -/
structure KVEntry where
  value : String
  expiresAt : Nat
deriving Repr, DecidableEq

/-- Look up a key honouring expiry: an entry is visible only while now is
strictly before its expiry time. -/
def kvLookup (kv : List (String × KVEntry)) (now : Nat) (key : String) : Option KVEntry :=
  match kv.find? (fun p => p.1 == key) with
  | some p => if now < p.2.expiresAt then some p.2 else none
  | none => none

/-- Redis `SET key value NX EX ttl`: set only if the key is absent (or expired);
returns whether the key was set, together with the updated store. -/
def setNX (kv : List (String × KVEntry)) (now ttl : Nat) (key value : String) :
    Bool × List (String × KVEntry) :=
  match kvLookup kv now key with
  | some _ => (false, kv)
  | none => (true, (key, ⟨value, now + ttl⟩) :: kv.filter (fun p => p.1 != key))

namespace Dedup

/-- Embeds dedup.DefaultTTL = 24 * time.Hour, counted here in seconds. -/
def DefaultTTL : Nat := 24 * 60 * 60

/-- Embeds the dedup key namespace constant of dedup.go (Go name: `keyPrefix`),
whose value is the string "ices:seen:". -/
def keyNamespace : String := "ices:seen:"

/-- Embeds Filter.IsNew: a SETNX on the namespaced key with value "1" (the Go
code passes the integer 1, which Redis stores as the string "1") and the
default TTL. Returns true iff the key was newly set. -/
def IsNew (kv : List (String × KVEntry)) (now : Nat) (eventID : String) :
    Bool × List (String × KVEntry) :=
  setNX kv now DefaultTTL (keyNamespace ++ eventID) "1"

end Dedup

namespace Graph

end Graph

namespace Subscription

/-- Embeds subscription.Record / row of the subscriptions table. The
BIGSERIAL surrogate id column is not modelled; rows are identified by the
UNIQUE (tenant_id, user_id) key. Timestamps are integers; nullable
timestamp columns are options. -/
structure Record where
  subscriptionID : String
  userID : String
  tenantID : String
  tenantAlias : String
  clientState : String
  expiresAt : Int
  deltaLink : String
  lastNotification : Option Int
  lastDeltaSync : Option Int
  status : String
  createdAt : Int
  updatedAt : Int
deriving Repr, DecidableEq

/-- Embeds Store.Get: the row whose (tenant_id, user_id) matches, if any. -/
def findByKey (db : List Record) (tenantID userID : String) : Option Record :=
  db.find? (fun r => r.tenantID == tenantID && r.userID == userID)

/-- Embeds Store.GetBySubscriptionID: the row whose subscription_id matches. -/
def findBySubscriptionID (db : List Record) (subscriptionID : String) : Option Record :=
  db.find? (fun r => r.subscriptionID == subscriptionID)

/-- Embeds Store.Upsert: INSERT keyed on (tenant_id, user_id); ON CONFLICT the
row keeps its identity and delta_link and takes the new subscription_id,
client_state, expires_at and status, with updated_at bumped. A fresh INSERT
takes the column default delta_link = "" and NULL last-seen timestamps. -/
def Upsert (db : List Record) (now : Int) (r : Record) : List Record :=
  if (db.find? (fun row => row.tenantID == r.tenantID && row.userID == r.userID)).isSome then
    db.map (fun row =>
      if row.tenantID == r.tenantID && row.userID == r.userID then
        { row with
          subscriptionID := r.subscriptionID
          clientState := r.clientState
          expiresAt := r.expiresAt
          status := r.status
          updatedAt := now }
      else row)
  else
    db ++ [{ r with
             deltaLink := ""
             lastNotification := none
             lastDeltaSync := none
             createdAt := now
             updatedAt := now }]

/-- Embeds Store.SaveDeltaLink: UPDATE delta_link and last_delta_sync for the
(tenant_id, user_id) row. -/
def SaveDeltaLinkDB (db : List Record) (now : Int) (tenantID userID deltaLink : String) :
    List Record :=
  db.map (fun row =>
    if row.tenantID == tenantID && row.userID == userID then
      { row with deltaLink := deltaLink, lastDeltaSync := some now, updatedAt := now }
    else row)

/-- Embeds Store.UpdateExpiry: UPDATE expires_at for the subscription_id row. -/
def UpdateExpiry (db : List Record) (now : Int) (subscriptionID : String) (newExpiry : Int) :
    List Record :=
  db.map (fun row =>
    if row.subscriptionID == subscriptionID then
      { row with expiresAt := newExpiry, updatedAt := now }
    else row)

/-- Embeds Store.MarkStatus: UPDATE status for the subscription_id row. -/
def MarkStatus (db : List Record) (now : Int) (subscriptionID status : String) : List Record :=
  db.map (fun row =>
    if row.subscriptionID == subscriptionID then
      { row with status := status, updatedAt := now }
    else row)

/-- Embeds Store.TouchNotification: UPDATE last_notification for the
(tenant_id, user_id) row. -/
def TouchNotification (db : List Record) (now : Int) (tenantID userID : String) : List Record :=
  db.map (fun row =>
    if row.tenantID == tenantID && row.userID == userID then
      { row with lastNotification := some now, updatedAt := now }
    else row)

/-- The (tenant, user, delta token) projection of the table, used to state
which operations can change a stored delta token. -/
def keyLinks (db : List Record) : List (String × String × String) :=
  db.map (fun r => (r.tenantID, r.userID, r.deltaLink))

/-- The possible outcomes of ensureSubscription, in place of its side effects. -/
inductive EnsureAction
  | noop
  | renew
  | create
deriving Repr, DecidableEq

/-- Embeds LifecycleManager.ensureSubscription as a decision function: given
the stored row for (tenant, user) (if any), the current time and the renewal
buffer, it renews an active row with time.Until(ExpiresAt) < renewBuffer,
leaves other active rows alone, and otherwise creates. -/
def ensureSubscription (existing : Option Record) (now renewBuffer : Int) : EnsureAction :=
  match existing with
  | some r =>
    if r.status == "active" then
      if r.expiresAt - now < renewBuffer then EnsureAction.renew
      else EnsureAction.noop
    else EnsureAction.create
  | none => EnsureAction.create

/-- Side effects of HandleLifecycleEvent that the claims are about. -/
inductive LifecycleAction
  | markedRemoved (subscriptionID : String)
  | renewAttempt (subscriptionID : String)
  | gapSync (tenantID userID : String)
deriving Repr, DecidableEq

/-- Embeds LifecycleManager.HandleLifecycleEvent as a function from the stored
rows, the set of tenant aliases with a configured Graph client, whether the
OnGapDetected callback is wired, and the event data, to the list of actions
taken. The reauthorizationRequired branch looks up the store with
Get(ctx, "", "") exactly as the source does; the missed branch checks the
callback but only logs, invoking nothing. -/
def HandleLifecycleEvent (db : List Record) (graphClientAliases : List String)
    (hasGapCallback : Bool) (lifecycleEvent subscriptionID tenantAlias : String) :
    List LifecycleAction :=
  if lifecycleEvent == "subscriptionRemoved" then
    [LifecycleAction.markedRemoved subscriptionID]
  else if lifecycleEvent == "reauthorizationRequired" then
    match findByKey db "" "" with
    | none => []
    | some rec =>
      if graphClientAliases.contains rec.tenantAlias then
        [LifecycleAction.renewAttempt rec.subscriptionID]
      else []
  else if lifecycleEvent == "missed" then
    -- the source tests OnGapDetected for nil here but, in either case, only
    -- writes a log line and never invokes the callback
    []
  else []

end Subscription

/-- Observable side effects of message processing, shared by the webhook path
and the delta path. -/
inductive Event
  | dedupMarked (fingerprint : String)
  | dedupDuplicate (fingerprint : String)
  | dedupError (fingerprint : String)
  | fetchAttempt (messageID : String)
  | published (messageID : String)
  | spoofDropped (messageID : String)
  | touchedPush (tenantID userID : String)
  | tokenSaved (tenantID userID link : String)
  | skipped
deriving Repr, DecidableEq

/-- Outcome of Fetcher.FetchMessage for a message id: a parsed envelope, a
404 treated as no envelope, or a surfaced error. -/
inductive FetchOutcome
  | ok
  | notFound
  | err
deriving Repr, DecidableEq

/-- The dedup-check, fetch and publish tail shared verbatim by the webhook
dispatch loop and the delta sync page loop: check IsNew on the fingerprint
(proceeding with a warning when the dedup store errors, skipping on a
duplicate), fetch the message (a 404 yields no envelope and is dropped; an
error is logged and dropped), then publish (an error is logged and
dropped). Returns the emitted events and the updated dedup store. -/
def dedupFetchPublish (fetchOf : String → FetchOutcome) (publishOK : String → Bool)
    (dedupOK : Bool) (kv : List (String × KVEntry)) (now : Nat)
    (fingerprint messageID : String) : List Event × List (String × KVEntry) :=
  if dedupOK then
    let r := Dedup.IsNew kv now fingerprint
    if r.1 then
      match fetchOf messageID with
      | FetchOutcome.err => ([Event.dedupMarked fingerprint, Event.fetchAttempt messageID], r.2)
      | FetchOutcome.notFound =>
        ([Event.dedupMarked fingerprint, Event.fetchAttempt messageID], r.2)
      | FetchOutcome.ok =>
        if publishOK messageID then
          ([Event.dedupMarked fingerprint, Event.fetchAttempt messageID,
            Event.published messageID], r.2)
        else
          ([Event.dedupMarked fingerprint, Event.fetchAttempt messageID], r.2)
    else
      ([Event.dedupDuplicate fingerprint], r.2)
  else
    match fetchOf messageID with
    | FetchOutcome.err => ([Event.dedupError fingerprint, Event.fetchAttempt messageID], kv)
    | FetchOutcome.notFound =>
      ([Event.dedupError fingerprint, Event.fetchAttempt messageID], kv)
    | FetchOutcome.ok =>
      if publishOK messageID then
        ([Event.dedupError fingerprint, Event.fetchAttempt messageID,
          Event.published messageID], kv)
      else
        ([Event.dedupError fingerprint, Event.fetchAttempt messageID], kv)

namespace Delta

/-- Embeds deltaMessage: a message id from a delta page, with the optional
`@removed` tombstone (carrying its reason). -/
structure DeltaMsg where
  id : String
  removed : Option String
deriving Repr, DecidableEq

/-- Result of fetchDeltaPage for one request: a decoded page (Go models
absent links as empty strings), a 410 Gone, or any other error. -/
inductive PageFetch
  | ok (value : List DeltaMsg) (nextLink : String) (deltaLink : String)
  | gone
  | err
deriving Repr, DecidableEq

/-- The environment of a sync run: whether the dedup store answers, the
per-message fetch and publish outcomes, and whether the subscription store
accepts the delta-link write. -/
structure SyncEnv where
  dedupOK : Bool
  fetchOf : String → FetchOutcome
  publishOK : String → Bool
  storeOK : Bool

/-- The syncer state the claims are about: the in-memory delta-link cache
(keyed by "tenant:user" exactly as in the Go map) and the persisted
delta links, abstracted to the same keying. -/
structure CacheStore where
  cache : List (String × String)
  storeLinks : List (String × String)
deriving Repr, DecidableEq

/-- Map assignment m[k] = v on an association list. -/
def setAssoc (m : List (String × String)) (k v : String) : List (String × String) :=
  (k, v) :: m.filter (fun p => p.1 != k)

/-- Map deletion delete(m, k) on an association list. -/
def delAssoc (m : List (String × String)) (k : String) : List (String × String) :=
  m.filter (fun p => p.1 != k)

/-- Map lookup m[k] on an association list. -/
def lookupAssoc (m : List (String × String)) (k : String) : Option String :=
  (m.find? (fun p => p.1 == k)).map Prod.snd

/-- Embeds Syncer.saveDeltaLink: the in-memory cache entry for
tenant:user is assigned first, then the store write is attempted; on store
failure the error is returned with the cache already updated. Returns
whether the call succeeded, together with the new state. -/
def saveDeltaLink (storeOK : Bool) (st : CacheStore) (tenantID userID link : String) :
    Bool × CacheStore :=
  let st1 : CacheStore := { st with cache := setAssoc st.cache (tenantID ++ ":" ++ userID) link }
  if storeOK then
    (true, { st1 with storeLinks := setAssoc st1.storeLinks (tenantID ++ ":" ++ userID) link })
  else
    (false, st1)

/-- Embeds the per-message body of the incrementalSync page loop for one live
message: dedup check under the "delta:" namespace (proceeding with a warning
if the dedup store errors, skipping on duplicate), then fetch, then publish,
continuing past per-message failures. -/
def deltaMsgStep (env : SyncEnv) (now : Nat) (kv : List (String × KVEntry)) (id : String) :
    List Event × List (String × KVEntry) :=
  dedupFetchPublish env.fetchOf env.publishOK env.dedupOK kv now ("delta:" ++ id) id

/-- Embeds the `for _, msg := range page.Value` loop of incrementalSync:
tombstoned entries are skipped, live entries go through deltaMsgStep. -/
def deltaMsgsLoop (env : SyncEnv) (now : Nat) (kv : List (String × KVEntry)) :
    List DeltaMsg → List Event × List (String × KVEntry)
  | [] => ([], kv)
  | msg :: rest =>
    if msg.removed.isSome then
      deltaMsgsLoop env now kv rest
    else
      let step := deltaMsgStep env now kv msg.id
      let tail := deltaMsgsLoop env now step.2 rest
      (step.1 ++ tail.1, tail.2)

/-- How a sync run ended, in place of the returned Go error. -/
inductive SyncResult
  | ok
  | errored
deriving Repr, DecidableEq

/-- Embeds Syncer.initialSync: page through the responses following nextLink
until one carries a deltaLink, save that token and stop; a 410, another
fetch error, or a traversal ending without a deltaLink is an error. No
message is processed and the dedup store is untouched. The page list is the
sequence of responses the provider returns; running out of pages stands for
a failing fetch. -/
def initialSyncPages (storeOK : Bool) (tenantID userID : String) (st : CacheStore) :
    List PageFetch → List Event × SyncResult × CacheStore
  | [] => ([], SyncResult.errored, st)
  | PageFetch.gone :: _ => ([], SyncResult.errored, st)
  | PageFetch.err :: _ => ([], SyncResult.errored, st)
  | PageFetch.ok _ nextLink deltaLink :: rest =>
    if deltaLink != "" then
      let save := saveDeltaLink storeOK st tenantID userID deltaLink
      ([Event.tokenSaved tenantID userID deltaLink],
       if save.1 then SyncResult.ok else SyncResult.errored, save.2)
    else if nextLink != "" then
      initialSyncPages storeOK tenantID userID st rest
    else
      ([], SyncResult.errored, st)

/-- Embeds Syncer.incrementalSync: process each page of changes; on 410 Gone
drop the cached token and fall through to initialSync on the remaining
responses; on another fetch error stop with an error; a page with a
deltaLink is terminal and its token is saved via saveDeltaLink; a page with
neither link ends the loop without saving. -/
def incrementalSyncPages (env : SyncEnv) (now : Nat) (tenantID userID : String)
    (st : CacheStore) (kv : List (String × KVEntry)) :
    List PageFetch → List Event × SyncResult × CacheStore × List (String × KVEntry)
  | [] => ([], SyncResult.errored, st, kv)
  | PageFetch.gone :: rest =>
    let st1 : CacheStore := { st with cache := delAssoc st.cache (tenantID ++ ":" ++ userID) }
    let init := initialSyncPages env.storeOK tenantID userID st1 rest
    (init.1, init.2.1, init.2.2, kv)
  | PageFetch.err :: _ => ([], SyncResult.errored, st, kv)
  | PageFetch.ok msgs nextLink deltaLink :: rest =>
    let body := deltaMsgsLoop env now kv msgs
    if deltaLink != "" then
      let save := saveDeltaLink env.storeOK st tenantID userID deltaLink
      (body.1 ++ [Event.tokenSaved tenantID userID deltaLink],
       if save.1 then SyncResult.ok else SyncResult.errored, save.2, body.2)
    else if nextLink != "" then
      let tail := incrementalSyncPages env now tenantID userID st body.2 rest
      (body.1 ++ tail.1, tail.2)
    else
      (body.1, SyncResult.ok, st, body.2)

end Delta

/-- Split a character list on a separator, in the manner of Go
strings.Split (an empty input yields one empty segment). -/
def splitOnChar (sep : Char) : List Char → List (List Char)
  | [] => [[]]
  | c :: rest =>
    let r := splitOnChar sep rest
    if c == sep then [] :: r
    else
      match r with
      | seg :: segs => (c :: seg) :: segs
      | [] => [[c]]

/-- ASCII lower-casing of one character. -/
def lowerChar (c : Char) : Char :=
  if 'A' ≤ c && c ≤ 'Z' then Char.ofNat (c.toNat + 32) else c

/-- Case-insensitive comparison of character lists, the ASCII part of Go
strings.EqualFold (the compared literals here are ASCII). -/
def eqFold (a b : List Char) : Bool :=
  a.map lowerChar == b.map lowerChar

namespace Webhook

/-- Embeds webhook.ChangeNotification (empty strings stand for absent
JSON fields, as in the Go struct). -/
structure ChangeNotification where
  subscriptionID : String
  changeType : String
  resource : String
  clientState : String
  tenantID : String
  lifecycleEvent : String
  subscriptionExpirationDateTime : String
deriving Repr, DecidableEq

/-- Embeds webhook.parseResource: strip one leading slash, split on "/",
require exactly four segments with "users" and "messages" compared
case-insensitively, and return the user id and message id. -/
def parseResource (resource : String) : Option (String × String) :=
  let cs :=
    match resource.toList with
    | '/' :: rest => rest
    | cs => cs
  match splitOnChar '/' cs with
  | [a, u, b, m] =>
    if eqFold a "users".toList && eqFold b "messages".toList then
      some (⟨u⟩, ⟨m⟩)
    else none
  | _ => none

/-- Embeds the per-notification body of Handler.processNotifications: skip
non-created change types, parse the resource, validate the echoed client
state against the stored record (processing anyway when the store lookup
errors or finds no row, dropping with a warning on a mismatch), touch the
record if present, check dedup on the raw message id (proceeding if the
dedup store errors, skipping on duplicate), then fetch and publish. The
store lookup by (notification tenant id, parsed user id) is performed
against db when storeUp is true and errors otherwise. -/
def processNotification (db : List Subscription.Record) (storeUp : Bool)
    (fetchOf : String → FetchOutcome) (publishOK : String → Bool) (dedupOK : Bool)
    (kv : List (String × KVEntry)) (now : Nat) (n : ChangeNotification) :
    List Event × List (String × KVEntry) :=
  if n.changeType != "created" then
    ([Event.skipped], kv)
  else
    match parseResource n.resource with
    | none => ([Event.skipped], kv)
    | some (userID, messageID) =>
      let lookup : Option Subscription.Record :=
        if storeUp then Subscription.findByKey db n.tenantID userID else none
      match lookup with
      | some rec =>
        if n.clientState != "" && rec.clientState != n.clientState then
          ([Event.spoofDropped messageID], kv)
        else
          let tail := dedupFetchPublish fetchOf publishOK dedupOK kv now messageID messageID
          (Event.touchedPush n.tenantID userID :: tail.1, tail.2)
      | none =>
        dedupFetchPublish fetchOf publishOK dedupOK kv now messageID messageID

/-- The parts of an incoming HTTP request the handlers inspect: the method,
the validationToken query parameter (empty when absent), whether the body
could be read, and the parse result of the body (none for invalid JSON). -/
structure HttpRequest where
  method : String
  validationToken : String
  bodyReadOK : Bool
  payload : Option (List ChangeNotification)
deriving Repr

/-- The response the handlers write: status code, Content-Type header
(empty when unset) and body. -/
structure HttpResponse where
  status : Nat
  contentType : String
  body : String
deriving Repr, DecidableEq

/-- Work the handlers hand off after responding: the background
processNotifications call, or HandleLifecycleEvent dispatches. -/
inductive ServerAction
  | processNotifs (ns : List ChangeNotification)
  | lifecycleDispatch (lifecycleEvent subscriptionID tenantAlias : String)
deriving Repr, DecidableEq

/-- Embeds Handler.ServeNotification: a non-empty validationToken is echoed
verbatim with 200 text/plain and nothing else happens; non-POST requests
get 200; unreadable or unparseable bodies get 202 with no dispatch; a
parsed payload gets 202 and a background processNotifications. -/
def ServeNotification (req : HttpRequest) : HttpResponse × List ServerAction :=
  if req.validationToken != "" then
    (⟨200, "text/plain", req.validationToken⟩, [])
  else if req.method != "POST" then
    (⟨200, "", ""⟩, [])
  else if !req.bodyReadOK then
    (⟨202, "", ""⟩, [])
  else
    match req.payload with
    | none => (⟨202, "", ""⟩, [])
    | some ns => (⟨202, "", ""⟩, [ServerAction.processNotifs ns])

/-- Embeds Handler.ServeLifecycle: a non-empty validationToken is echoed
verbatim with 200 text/plain and nothing else happens; otherwise the body is
parsed (202 in every case) and each notification carrying a lifecycleEvent
is dispatched to HandleLifecycleEvent with the tenant alias taken from the
third path segment. -/
def ServeLifecycle (path : String) (req : HttpRequest) : HttpResponse × List ServerAction :=
  if req.validationToken != "" then
    (⟨200, "text/plain", req.validationToken⟩, [])
  else if !req.bodyReadOK then
    (⟨202, "", ""⟩, [])
  else
    match req.payload with
    | none => (⟨202, "", ""⟩, [])
    | some ns =>
      let parts := splitOnChar '/' path.toList
      let tenantAlias : String := ⟨(parts.get? 2).getD []⟩
      (⟨202, "", ""⟩,
       (ns.filter (fun n => n.lifecycleEvent != "")).map
         (fun n => ServerAction.lifecycleDispatch n.lifecycleEvent n.subscriptionID tenantAlias))

end Webhook

/-- A stored subscription row used as a concrete input: active, expiring at
time 100, for mailbox (t1, u1) under subscription id sub-1. -/
def recT1U1 : Subscription.Record :=
  { subscriptionID := "sub-1"
    userID := "u1"
    tenantID := "t1"
    tenantAlias := "t1"
    clientState := "hex32"
    expiresAt := 100
    deltaLink := ""
    lastNotification := none
    lastDeltaSync := none
    status := "active"
    createdAt := 0
    updatedAt := 0 }

/-- A concrete syncer state whose cache and persisted links both hold the
token "old" for mailbox (t1, u1). -/
def stOld : Delta.CacheStore :=
  { cache := [("t1:u1", "old")], storeLinks := [("t1:u1", "old")] }

/-- A concrete change notification for message m1 of mailbox u1 in tenant t1
whose echoed client state does not match the stored secret of recT1U1. -/
def notifWrongState : Webhook.ChangeNotification :=
  { subscriptionID := "sub-1"
    changeType := "created"
    resource := "Users/u1/Messages/m1"
    clientState := "wrong"
    tenantID := "t1"
    lifecycleEvent := ""
    subscriptionExpirationDateTime := "" }

/-- A concrete change notification for message m1 of mailbox u1 in tenant t1
whose echoed client state matches the stored secret of recT1U1. -/
def notifGoodState : Webhook.ChangeNotification :=
  { subscriptionID := "sub-1"
    changeType := "created"
    resource := "users/u1/messages/m1"
    clientState := "hex32"
    tenantID := "t1"
    lifecycleEvent := ""
    subscriptionExpirationDateTime := "" }

/-- A concrete change notification for message m1 with empty client state and
no matching record in the store. -/
def notifNoRecord : Webhook.ChangeNotification :=
  { subscriptionID := "sub-9"
    changeType := "created"
    resource := "users/u1/messages/m1"
    clientState := ""
    tenantID := "t9"
    lifecycleEvent := ""
    subscriptionExpirationDateTime := "" }

/-- A concrete sync environment in which every fetch and publish succeeds. -/
def envAllOK : Delta.SyncEnv :=
  { dedupOK := true
    fetchOf := fun _ => FetchOutcome.ok
    publishOK := fun _ => true
    storeOK := true }

/-- A concrete sync environment in which every fetch fails. -/
def envFetchErr : Delta.SyncEnv :=
  { dedupOK := true
    fetchOf := fun _ => FetchOutcome.err
    publishOK := fun _ => true
    storeOK := true }

/-- A concrete webhook request carrying a validation token. -/
def reqProbe : Webhook.HttpRequest :=
  { method := "POST"
    validationToken := "abc-def"
    bodyReadOK := true
    payload := none }

/-! Helper lemmas shared by the claim proofs. -/

theorem lookupAssoc_setAssoc (m : List (String × String)) (k v : String) :
    Delta.lookupAssoc (Delta.setAssoc m k v) k = some v := by
  simp [Delta.lookupAssoc, Delta.setAssoc, List.find?]

theorem dedupFetchPublish_shape (fetchOf : String → FetchOutcome) (publishOK : String → Bool)
    (dedupOK : Bool) (kv : List (String × KVEntry)) (now : Nat) (fp m : String) :
    (∀ x : String,
      Event.spoofDropped x ∉ (dedupFetchPublish fetchOf publishOK dedupOK kv now fp m).1) ∧
    (Event.dedupMarked fp ∈ (dedupFetchPublish fetchOf publishOK dedupOK kv now fp m).1 ∨
     Event.dedupDuplicate fp ∈ (dedupFetchPublish fetchOf publishOK dedupOK kv now fp m).1 ∨
     Event.dedupError fp ∈ (dedupFetchPublish fetchOf publishOK dedupOK kv now fp m).1) := by
  unfold dedupFetchPublish
  cases dedupOK <;> rcases hf : fetchOf m <;> cases hn : (Dedup.IsNew kv now fp).1 <;>
    cases hp : publishOK m <;> simp [hf, hn, hp]

theorem processNotification_found (db : List Subscription.Record)
    (fetchOf : String → FetchOutcome) (publishOK : String → Bool) (dedupOK : Bool)
    (kv : List (String × KVEntry)) (now : Nat) (n : Webhook.ChangeNotification)
    (userID messageID : String) (rec : Subscription.Record)
    (hCreated : n.changeType = "created")
    (hParse : Webhook.parseResource n.resource = some (userID, messageID))
    (hrec : Subscription.findByKey db n.tenantID userID = some rec) :
    Webhook.processNotification db true fetchOf publishOK dedupOK kv now n =
      if n.clientState != "" && rec.clientState != n.clientState then
        ([Event.spoofDropped messageID], kv)
      else
        (Event.touchedPush n.tenantID userID ::
           (dedupFetchPublish fetchOf publishOK dedupOK kv now messageID messageID).1,
         (dedupFetchPublish fetchOf publishOK dedupOK kv now messageID messageID).2) := by
  simp only [Webhook.processNotification, hCreated, bne_self_eq_false, Bool.false_eq_true,
    if_false, hParse, if_true, hrec]

theorem processNotification_absent (db : List Subscription.Record)
    (fetchOf : String → FetchOutcome) (publishOK : String → Bool) (dedupOK : Bool)
    (kv : List (String × KVEntry)) (now : Nat) (n : Webhook.ChangeNotification)
    (userID messageID : String)
    (hCreated : n.changeType = "created")
    (hParse : Webhook.parseResource n.resource = some (userID, messageID))
    (hnone : Subscription.findByKey db n.tenantID userID = none) :
    Webhook.processNotification db true fetchOf publishOK dedupOK kv now n =
      dedupFetchPublish fetchOf publishOK dedupOK kv now messageID messageID := by
  simp only [Webhook.processNotification, hCreated, bne_self_eq_false, Bool.false_eq_true,
    if_false, hParse, if_true, hnone]

/-!
## C1

The spec claims that a new delta token is persisted to the Subscription
Store before the in-memory cache is updated, and that a failed store write
leaves the cached token unchanged. In Syncer.saveDeltaLink the order is the
reverse: the cache entry is assigned first and the store write attempted
afterwards, so a failed write leaves the new token in the cache.
-/

/-- C1 counterexample: starting from a state whose cache and store both hold
"old" for (t1, u1), a saveDeltaLink whose store write fails returns an error
yet replaces the cached token with "new", contradicting the claim that the
cached token is left unchanged when the store write fails. -/
theorem C1_store_failure_counterexample :
    (Delta.saveDeltaLink false stOld "t1" "u1" "new").1 = false ∧
    Delta.lookupAssoc stOld.cache "t1:u1" = some "old" ∧
    Delta.lookupAssoc (Delta.saveDeltaLink false stOld "t1" "u1" "new").2.cache "t1:u1" =
      some "new" ∧
    Delta.lookupAssoc (Delta.saveDeltaLink false stOld "t1" "u1" "new").2.storeLinks "t1:u1" =
      some "old" := by decide

/-- C1 amended: saveDeltaLink updates the in-memory cache before attempting
the store write; the cache holds the new token whatever the store outcome,
while the store is updated exactly when the write succeeds, a failure being
reported to the caller. -/
theorem C1_cache_updated_before_store (st : Delta.CacheStore) (t u link : String)
    (storeOK : Bool) :
    Delta.lookupAssoc (Delta.saveDeltaLink storeOK st t u link).2.cache (t ++ ":" ++ u) =
      some link ∧
    (Delta.saveDeltaLink storeOK st t u link).1 = storeOK ∧
    (Delta.saveDeltaLink false st t u link).2.storeLinks = st.storeLinks ∧
    Delta.lookupAssoc (Delta.saveDeltaLink true st t u link).2.storeLinks (t ++ ":" ++ u) =
      some link := by
  cases storeOK <;>
    simp [Delta.saveDeltaLink, lookupAssoc_setAssoc]

/-!
## C2

The spec claims a lifecycle notification with event missed triggers a delta
sync for the affected mailbox. The missed branch of HandleLifecycleEvent
checks that the OnGapDetected callback is wired but only writes a log line
and never invokes it.
-/

/-- C2: handling a missed lifecycle event performs no action at all — in
particular no gap sync — whatever the stored rows, the configured clients,
and whether the gap callback is wired. -/
theorem C2_missed_triggers_no_gap_sync (db : List Subscription.Record)
    (clients : List String) (hasGapCallback : Bool) (subID anAlias : String) :
    Subscription.HandleLifecycleEvent db clients hasGapCallback "missed" subID anAlias = [] := by
  rfl

/-!
## C3

The spec claims a reauthorizationRequired lifecycle event leads to an
immediate renewal of the identified subscription. The branch looks the
record up with Store.Get(ctx, "", "") — empty tenant and user — instead of
GetBySubscriptionID, so for any store without a row keyed ("", "") the
lookup finds nothing and the handler returns without renewing anything.
-/

/-- C3: whenever no row has empty tenant and user ids (always the case for
real rows), handling reauthorizationRequired performs no renewal, even when
the store contains the row for the named subscription id. -/
theorem C3_reauth_never_renews (db : List Subscription.Record) (clients : List String)
    (hasGapCallback : Bool) (subID anAlias : String)
    (hNoEmptyKey : Subscription.findByKey db "" "" = none) :
    Subscription.HandleLifecycleEvent db clients hasGapCallback
      "reauthorizationRequired" subID anAlias = [] := by
  simp [Subscription.HandleLifecycleEvent, hNoEmptyKey]

/-- C3 witness: the store holds the row for subscription sub-1, yet handling
reauthorizationRequired for sub-1 issues nothing. -/
theorem C3_reauth_never_renews_witness :
    Subscription.findBySubscriptionID [recT1U1] "sub-1" = some recT1U1 ∧
    Subscription.HandleLifecycleEvent [recT1U1] ["t1"] true
      "reauthorizationRequired" "sub-1" "t1" = [] :=
  ⟨by decide, C3_reauth_never_renews [recT1U1] ["t1"] true "sub-1" "t1" (by decide)⟩

/-!
## C4

ensureSubscription renews an active row iff time.Until(ExpiresAt) is
strictly below the renewal buffer. At exactly now = expires-at − buffer the
remaining lifetime equals the buffer, the strict comparison fails, and the
call is a no-op — not the renewal the spec claims.
-/

/-- C4 counterexample: for an active row expiring at 100, with buffer 60 and
now = 40 (exactly expires-at − buffer), ensureSubscription is a no-op and
not a renewal. -/
theorem C4_boundary_counterexample :
    recT1U1.status = "active" ∧
    recT1U1.expiresAt - 40 = 60 ∧
    Subscription.ensureSubscription (some recT1U1) 40 60 = Subscription.EnsureAction.noop ∧
    Subscription.ensureSubscription (some recT1U1) 40 60 ≠ Subscription.EnsureAction.renew := by
  decide

/-- C4 amended: for an active record, ensureSubscription renews exactly when
the remaining lifetime is strictly less than the renewal buffer and is a
no-op when the remaining lifetime is at least the buffer; in particular at
exactly now = expires-at − renewal-buffer it is a no-op, not a creation and
not a renewal. -/
theorem C4_renewal_window (r : Subscription.Record) (now buffer : Int)
    (hActive : r.status = "active") :
    (r.expiresAt - now < buffer →
      Subscription.ensureSubscription (some r) now buffer = Subscription.EnsureAction.renew) ∧
    (buffer ≤ r.expiresAt - now →
      Subscription.ensureSubscription (some r) now buffer = Subscription.EnsureAction.noop) ∧
    (r.expiresAt - now = buffer →
      Subscription.ensureSubscription (some r) now buffer = Subscription.EnsureAction.noop) := by
  have hs : Subscription.ensureSubscription (some r) now buffer =
      if r.expiresAt - now < buffer then Subscription.EnsureAction.renew
      else Subscription.EnsureAction.noop := by
    simp [Subscription.ensureSubscription, hActive]
  refine ⟨fun h => ?_, fun h => ?_, fun h => ?_⟩
  · rw [hs, if_pos h]
  · rw [hs, if_neg (by omega)]
  · rw [hs, if_neg (by omega)]

/-- C4 witness: at one second inside the buffer the row is renewed; well
outside the buffer nothing happens. -/
theorem C4_renewal_window_witness :
    Subscription.ensureSubscription (some recT1U1) 41 60 = Subscription.EnsureAction.renew ∧
    Subscription.ensureSubscription (some recT1U1) 0 60 = Subscription.EnsureAction.noop :=
  ⟨(C4_renewal_window recT1U1 41 60 (by decide)).1 (by decide),
   (C4_renewal_window recT1U1 0 60 (by decide)).2.1 (by decide)⟩

/-!
## C5

The fetcher requests $select=id,subject,from,body,internetMessageHeaders,
hasAttachments — without the receivedDateTime and toRecipients fields the
spec lists — and asks for a plain-text body via the Prefer header.
-/

/-- C6 counterexample: the first IsNew for fingerprint f returns true but
records the key "ices:seen:f", not "seen:f". -/
theorem C6_key_counterexample :
    (Dedup.IsNew [] 0 "f").1 = true ∧
    (Dedup.IsNew [] 0 "f").2.map Prod.fst = ["ices:seen:f"] ∧
    (Dedup.IsNew [] 0 "f").2.map Prod.fst ≠ ["seen:f"] := by decide

/-- C6 amended: for any fingerprint with no live entry, the first IsNew
returns true and records "ices:seen:" ++ F with value "1" and a 24-hour
TTL; any subsequent call within the TTL returns false. -/
theorem C6_dedup_semantics (kv : List (String × KVEntry)) (now : Nat) (F : String)
    (h : kvLookup kv now (Dedup.keyNamespace ++ F) = none) :
    (Dedup.IsNew kv now F).1 = true ∧
    kvLookup (Dedup.IsNew kv now F).2 now (Dedup.keyNamespace ++ F) =
      some ⟨"1", now + Dedup.DefaultTTL⟩ ∧
    (∀ later : Nat, now ≤ later → later < now + Dedup.DefaultTTL →
      (Dedup.IsNew (Dedup.IsNew kv now F).2 later F).1 = false) := by
  unfold Dedup.IsNew setNX
  rw [h]
  refine ⟨rfl, ?_, ?_⟩
  · simp [kvLookup, List.find?, Dedup.DefaultTTL]
  · intro later _ hlt
    have hkv : kvLookup ((Dedup.keyNamespace ++ F, (⟨"1", now + Dedup.DefaultTTL⟩ : KVEntry)) ::
        kv.filter (fun p => p.1 != (Dedup.keyNamespace ++ F))) later (Dedup.keyNamespace ++ F) =
        some ⟨"1", now + Dedup.DefaultTTL⟩ := by
      simp [kvLookup, List.find?]
      exact hlt
    simp [hkv]

/-- C6 witness: concrete run at fingerprint f — no live entry at time 0, the
first call returns true, a second call at time 100 (inside the TTL) returns
false. -/
theorem C6_dedup_semantics_witness :
    kvLookup [] 0 (Dedup.keyNamespace ++ "f") = none ∧
    (Dedup.IsNew [] 0 "f").1 = true ∧
    (Dedup.IsNew (Dedup.IsNew [] 0 "f").2 100 "f").1 = false :=
  ⟨by decide, (C6_dedup_semantics [] 0 "f" (by decide)).1,
   (C6_dedup_semantics [] 0 "f" (by decide)).2.2 100 (by decide) (by decide)⟩

/-!
## C9

A non-empty validationToken query parameter short-circuits both handlers
before any other processing.
-/

/-- C9: both ServeNotification and ServeLifecycle answer a request carrying a
non-empty validationToken with HTTP 200, Content-Type text/plain and the
token verbatim, and hand off no work — in particular no queue push. -/
theorem C9_validation_probe (req : Webhook.HttpRequest) (path : String)
    (h : req.validationToken ≠ "") :
    Webhook.ServeNotification req = (⟨200, "text/plain", req.validationToken⟩, []) ∧
    Webhook.ServeLifecycle path req = (⟨200, "text/plain", req.validationToken⟩, []) := by
  constructor <;> simp [Webhook.ServeNotification, Webhook.ServeLifecycle, h]

/-- C9 witness: the probe request with token abc-def is answered verbatim on
both endpoints with no handed-off work. -/
theorem C9_validation_probe_witness :
    Webhook.ServeNotification reqProbe = (⟨200, "text/plain", "abc-def"⟩, []) ∧
    Webhook.ServeLifecycle "/lifecycle/t1" reqProbe = (⟨200, "text/plain", "abc-def"⟩, []) :=
  C9_validation_probe reqProbe "/lifecycle/t1" (by decide)

/-!
## C7

The per-notification validation in processNotifications: with the store
reachable, a present record and a non-empty echoed client state, a mismatch
drops the notification with a spoofing warning before touch, dedup, fetch
and publish; with no record present, processing proceeds.
-/

/-- C7: with the store reachable, for a created notification whose resource
parses: a stored record and a non-empty, mismatched client state yield
exactly a spoof drop (store untouched); a publish can only happen when the
stored secret equals the echoed state; and with no record the notification
is not dropped but proceeds to the dedup check. -/
theorem C7_client_state_precondition (db : List Subscription.Record)
    (fetchOf : String → FetchOutcome) (publishOK : String → Bool) (dedupOK : Bool)
    (kv : List (String × KVEntry)) (now : Nat) (n : Webhook.ChangeNotification)
    (userID messageID : String)
    (hCreated : n.changeType = "created")
    (hParse : Webhook.parseResource n.resource = some (userID, messageID)) :
    (∀ rec, Subscription.findByKey db n.tenantID userID = some rec →
      n.clientState ≠ "" → rec.clientState ≠ n.clientState →
      Webhook.processNotification db true fetchOf publishOK dedupOK kv now n =
        ([Event.spoofDropped messageID], kv)) ∧
    (∀ rec id, Subscription.findByKey db n.tenantID userID = some rec →
      n.clientState ≠ "" →
      Event.published id ∈
        (Webhook.processNotification db true fetchOf publishOK dedupOK kv now n).1 →
      rec.clientState = n.clientState) ∧
    (Subscription.findByKey db n.tenantID userID = none →
      Event.spoofDropped messageID ∉
        (Webhook.processNotification db true fetchOf publishOK dedupOK kv now n).1 ∧
      (Event.dedupMarked messageID ∈
        (Webhook.processNotification db true fetchOf publishOK dedupOK kv now n).1 ∨
       Event.dedupDuplicate messageID ∈
        (Webhook.processNotification db true fetchOf publishOK dedupOK kv now n).1 ∨
       Event.dedupError messageID ∈
        (Webhook.processNotification db true fetchOf publishOK dedupOK kv now n).1)) := by
  refine ⟨fun rec hrec hne hmm => ?_, fun rec id hrec hne hmem => ?_, fun hnone => ?_⟩
  · rw [processNotification_found db fetchOf publishOK dedupOK kv now n userID messageID
      rec hCreated hParse hrec]
    simp [hne, hmm]
  · by_cases hcs : rec.clientState = n.clientState
    · exact hcs
    · rw [processNotification_found db fetchOf publishOK dedupOK kv now n userID messageID
        rec hCreated hParse hrec] at hmem
      simp [hne, hcs] at hmem
  · rw [processNotification_absent db fetchOf publishOK dedupOK kv now n userID messageID
      hCreated hParse hnone]
    exact ⟨(dedupFetchPublish_shape fetchOf publishOK dedupOK kv now messageID messageID).1
        messageID,
      (dedupFetchPublish_shape fetchOf publishOK dedupOK kv now messageID messageID).2⟩

/-- C7 witness: the notification echoing "wrong" against the stored secret
"hex32" is dropped as spoofed with the dedup store untouched; the same
message with no stored record is not dropped. -/
theorem C7_client_state_precondition_witness :
    Webhook.processNotification [recT1U1] true (fun _ => FetchOutcome.ok) (fun _ => true)
      true [] 0 notifWrongState = ([Event.spoofDropped "m1"], []) ∧
    Event.spoofDropped "m1" ∉
      (Webhook.processNotification [] true (fun _ => FetchOutcome.ok) (fun _ => true)
        true [] 0 notifNoRecord).1 :=
  ⟨(C7_client_state_precondition [recT1U1] (fun _ => FetchOutcome.ok) (fun _ => true) true []
      0 notifWrongState "u1" "m1" (by decide) (by decide)).1 recT1U1 (by decide) (by decide)
      (by decide),
   ((C7_client_state_precondition [] (fun _ => FetchOutcome.ok) (fun _ => true) true []
      0 notifNoRecord "u1" "m1" (by decide) (by decide)).2.2 (by decide)).1⟩

/-!
## C8

The delta token in the store is only overwritten by SaveDeltaLink, invoked
by the syncer exclusively with tokens coming from pages carrying a
deltaLink; Upsert on conflict replaces subscription id, secret, expiry and
status but never delta_link.
-/

theorem find?_map_pred_stable {α : Type} (l : List α) (f : α → α) (p : α → Bool)
    (hp : ∀ a, p (f a) = p a) : (l.map f).find? p = (l.find? p).map f := by
  induction l with
  | nil => rfl
  | cons hd tl ih =>
    cases hphd : p hd
    · rw [List.map_cons, List.find?_cons_of_neg _ (by simp [hp hd, hphd]),
        List.find?_cons_of_neg _ (by simp [hphd]), ih]
    · rw [List.map_cons, List.find?_cons_of_pos _ (by simp [hp hd, hphd]),
        List.find?_cons_of_pos _ hphd]
      rfl

theorem keyLinks_map_preserve (db : List Subscription.Record)
    (f : Subscription.Record → Subscription.Record)
    (hf : ∀ r, (f r).tenantID = r.tenantID ∧ (f r).userID = r.userID ∧
      (f r).deltaLink = r.deltaLink) :
    Subscription.keyLinks (db.map f) = Subscription.keyLinks db := by
  unfold Subscription.keyLinks
  rw [List.map_map]
  exact List.map_congr_left (fun r _ => by
    simp [Function.comp, (hf r).1, (hf r).2.1, (hf r).2.2])

theorem tokenSaved_not_in_dedupFetchPublish (fetchOf : String → FetchOutcome)
    (publishOK : String → Bool) (dedupOK : Bool) (kv : List (String × KVEntry)) (now : Nat)
    (fp m t u link : String) :
    Event.tokenSaved t u link ∉ (dedupFetchPublish fetchOf publishOK dedupOK kv now fp m).1 := by
  unfold dedupFetchPublish
  cases dedupOK <;> rcases hf : fetchOf m <;> cases hn : (Dedup.IsNew kv now fp).1 <;>
    cases hp : publishOK m <;> simp [hf, hn, hp]

theorem tokenSaved_not_in_deltaMsgsLoop (env : Delta.SyncEnv) (now : Nat)
    (kv : List (String × KVEntry)) (msgs : List Delta.DeltaMsg) (t u link : String) :
    Event.tokenSaved t u link ∉ (Delta.deltaMsgsLoop env now kv msgs).1 := by
  induction msgs generalizing kv with
  | nil => simp [Delta.deltaMsgsLoop]
  | cons msg rest ih =>
    by_cases hr : msg.removed.isSome
    · simpa [Delta.deltaMsgsLoop, hr] using ih kv
    · simp only [Delta.deltaMsgsLoop, hr, if_false, Bool.false_eq_true, List.mem_append]
      push_neg
      exact ⟨tokenSaved_not_in_dedupFetchPublish env.fetchOf env.publishOK env.dedupOK kv now
        ("delta:" ++ msg.id) msg.id t u link, ih _⟩

theorem tokenSaved_initialSync (storeOK : Bool) (t u : String) (st : Delta.CacheStore)
    (pages : List Delta.PageFetch) (t2 u2 link : String)
    (h : Event.tokenSaved t2 u2 link ∈ (Delta.initialSyncPages storeOK t u st pages).1) :
    link ≠ "" ∧ ∃ msgs next, Delta.PageFetch.ok msgs next link ∈ pages := by
  induction pages generalizing st with
  | nil => simp [Delta.initialSyncPages] at h
  | cons page rest ih =>
    cases page with
    | gone => simp [Delta.initialSyncPages] at h
    | err => simp [Delta.initialSyncPages] at h
    | ok msgs nextLink deltaLink =>
      by_cases hd : deltaLink = ""
      · subst hd
        by_cases hn : nextLink = ""
        · simp [Delta.initialSyncPages, hn] at h
        · rw [Delta.initialSyncPages] at h
          simp only [bne_self_eq_false, Bool.false_eq_true, if_false] at h
          rw [if_pos (by simp [hn])] at h
          obtain ⟨h1, ms, nx, hmem⟩ := ih st h
          exact ⟨h1, ms, nx, List.mem_cons_of_mem _ hmem⟩
      · rw [Delta.initialSyncPages] at h
        rw [if_pos (by simp [hd])] at h
        simp only [List.mem_singleton, Event.tokenSaved.injEq] at h
        obtain ⟨-, -, hlink⟩ := h
        subst hlink
        exact ⟨hd, msgs, nextLink, List.mem_cons_self _ _⟩

theorem tokenSaved_incrementalSync (env : Delta.SyncEnv) (now : Nat) (t u : String)
    (st : Delta.CacheStore) (kv : List (String × KVEntry)) (pages : List Delta.PageFetch)
    (t2 u2 link : String)
    (h : Event.tokenSaved t2 u2 link ∈
      (Delta.incrementalSyncPages env now t u st kv pages).1) :
    link ≠ "" ∧ ∃ msgs next, Delta.PageFetch.ok msgs next link ∈ pages := by
  induction pages generalizing st kv with
  | nil => simp [Delta.incrementalSyncPages] at h
  | cons page rest ih =>
    cases page with
    | gone =>
      rw [Delta.incrementalSyncPages] at h
      obtain ⟨h1, ms, nx, hmem⟩ := tokenSaved_initialSync env.storeOK t u _ rest t2 u2 link h
      exact ⟨h1, ms, nx, List.mem_cons_of_mem _ hmem⟩
    | err => simp [Delta.incrementalSyncPages] at h
    | ok msgs nextLink deltaLink =>
      by_cases hd : deltaLink = ""
      · subst hd
        by_cases hn : nextLink = ""
        · rw [Delta.incrementalSyncPages] at h
          simp only [bne_self_eq_false, Bool.false_eq_true, if_false] at h
          rw [if_neg (by simp [hn])] at h
          exact absurd h (tokenSaved_not_in_deltaMsgsLoop env now kv msgs t2 u2 link)
        · rw [Delta.incrementalSyncPages] at h
          simp only [bne_self_eq_false, Bool.false_eq_true, if_false] at h
          rw [if_pos (by simp [hn]), List.mem_append] at h
          rcases h with h | h
          · exact absurd h (tokenSaved_not_in_deltaMsgsLoop env now kv msgs t2 u2 link)
          · obtain ⟨h1, ms, nx, hmem⟩ := ih st _ h
            exact ⟨h1, ms, nx, List.mem_cons_of_mem _ hmem⟩
      · rw [Delta.incrementalSyncPages] at h
        rw [if_pos (by simp [hd]), List.mem_append] at h
        rcases h with h | h
        · exact absurd h (tokenSaved_not_in_deltaMsgsLoop env now kv msgs t2 u2 link)
        · simp only [List.mem_singleton, Event.tokenSaved.injEq] at h
          obtain ⟨-, -, hlink⟩ := h
          subst hlink
          exact ⟨hd, msgs, nextLink, List.mem_cons_self _ _⟩

/-- C8: the stored delta token is only ever overwritten by SaveDeltaLink
carrying a token from a page that arrived with a non-empty deltaLink.
Part 1: Upsert on conflict preserves the (tenant, user, delta token)
projection of every row while replacing subscription id, client state,
expiry and status of the conflicting row; a fresh insert appends an empty
token. Part 2: UpdateExpiry, MarkStatus and TouchNotification never change
any token. Part 3: every SaveDeltaLink the syncer issues — during initial
or incremental sync — carries a non-empty token that is the deltaLink of
one of the fetched pages. -/
theorem C8_token_overwrite_discipline :
    (∀ (db : List Subscription.Record) (now : Int) (r old : Subscription.Record),
      Subscription.findByKey db r.tenantID r.userID = some old →
      Subscription.keyLinks (Subscription.Upsert db now r) = Subscription.keyLinks db ∧
      Subscription.findByKey (Subscription.Upsert db now r) r.tenantID r.userID =
        some { old with
               subscriptionID := r.subscriptionID
               clientState := r.clientState
               expiresAt := r.expiresAt
               status := r.status
               updatedAt := now }) ∧
    (∀ (db : List Subscription.Record) (now : Int) (r : Subscription.Record),
      Subscription.findByKey db r.tenantID r.userID = none →
      Subscription.keyLinks (Subscription.Upsert db now r) =
        Subscription.keyLinks db ++ [(r.tenantID, r.userID, "")]) ∧
    (∀ (db : List Subscription.Record) (now : Int) (sid : String) (e : Int),
      Subscription.keyLinks (Subscription.UpdateExpiry db now sid e) =
        Subscription.keyLinks db) ∧
    (∀ (db : List Subscription.Record) (now : Int) (sid status : String),
      Subscription.keyLinks (Subscription.MarkStatus db now sid status) =
        Subscription.keyLinks db) ∧
    (∀ (db : List Subscription.Record) (now : Int) (tid uid : String),
      Subscription.keyLinks (Subscription.TouchNotification db now tid uid) =
        Subscription.keyLinks db) ∧
    (∀ (storeOK : Bool) (t u : String) (st : Delta.CacheStore)
        (pages : List Delta.PageFetch) (t2 u2 link : String),
      Event.tokenSaved t2 u2 link ∈ (Delta.initialSyncPages storeOK t u st pages).1 →
      link ≠ "" ∧ ∃ msgs next, Delta.PageFetch.ok msgs next link ∈ pages) ∧
    (∀ (env : Delta.SyncEnv) (now : Nat) (t u : String) (st : Delta.CacheStore)
        (kv : List (String × KVEntry)) (pages : List Delta.PageFetch) (t2 u2 link : String),
      Event.tokenSaved t2 u2 link ∈ (Delta.incrementalSyncPages env now t u st kv pages).1 →
      link ≠ "" ∧ ∃ msgs next, Delta.PageFetch.ok msgs next link ∈ pages) := by
  refine ⟨fun db now r old hold => ⟨?_, ?_⟩, fun db now r hnone => ?_,
    fun db now sid e => ?_, fun db now sid status => ?_, fun db now tid uid => ?_,
    tokenSaved_initialSync, tokenSaved_incrementalSync⟩
  · have hc : (db.find?
        (fun row => row.tenantID == r.tenantID && row.userID == r.userID)).isSome = true := by
      unfold Subscription.findByKey at hold
      rw [hold]
      rfl
    rw [Subscription.Upsert, if_pos hc]
    exact keyLinks_map_preserve db _ (fun row => by
      by_cases hrow : (row.tenantID == r.tenantID && row.userID == r.userID) = true <;>
        simp [hrow])
  · have hc : (db.find?
        (fun row => row.tenantID == r.tenantID && row.userID == r.userID)).isSome = true := by
      unfold Subscription.findByKey at hold
      rw [hold]
      rfl
    have hpold : (old.tenantID == r.tenantID && old.userID == r.userID) = true := by
      have h2 := hold
      unfold Subscription.findByKey at h2
      simpa using List.find?_some h2
    rw [Subscription.Upsert, if_pos hc]
    unfold Subscription.findByKey at hold ⊢
    rw [find?_map_pred_stable db _ _ (fun row => by
        by_cases hrow : (row.tenantID == r.tenantID && row.userID == r.userID) = true <;>
          simp [hrow]), hold]
    simp only [Option.map_some']
    rw [if_pos hpold]
  · have hc : (db.find?
        (fun row => row.tenantID == r.tenantID && row.userID == r.userID)).isSome = false := by
      unfold Subscription.findByKey at hnone
      rw [hnone]
      rfl
    rw [Subscription.Upsert, if_neg (by simp [hc])]
    simp [Subscription.keyLinks]
  · exact keyLinks_map_preserve db _ (fun row => by
      by_cases hrow : (row.subscriptionID == sid) = true <;> simp [hrow])
  · exact keyLinks_map_preserve db _ (fun row => by
      by_cases hrow : (row.subscriptionID == sid) = true <;> simp [hrow])
  · exact keyLinks_map_preserve db _ (fun row => by
      by_cases hrow : (row.tenantID == tid && row.userID == uid) = true <;> simp [hrow])

/-- C8 witness: a concrete conflicting Upsert replaces the four fields and
keeps the stored token; a concrete incremental sync saves exactly the token
of the page that carried a deltaLink. -/
theorem C8_token_overwrite_discipline_witness :
    Subscription.keyLinks (Subscription.Upsert [recT1U1] 7
      { recT1U1 with subscriptionID := "sub-2", clientState := "cs2", deltaLink := "X" }) =
      Subscription.keyLinks [recT1U1] ∧
    ("tok1" ≠ "" ∧ ∃ msgs next, Delta.PageFetch.ok msgs next "tok1" ∈
      [Delta.PageFetch.ok [] "" "tok1"]) := by
  constructor
  · exact (C8_token_overwrite_discipline.1 [recT1U1] 7
      { recT1U1 with subscriptionID := "sub-2", clientState := "cs2", deltaLink := "X" }
      recT1U1 (by decide)).1
  · exact C8_token_overwrite_discipline.2.2.2.2.2.2 envAllOK 0 "t1" "u1"
      { cache := [], storeLinks := [] } [] [Delta.PageFetch.ok [] "" "tok1"] "t1" "u1" "tok1"
      (by decide)

/-!
## C10

IsNew records the fingerprint atomically before the fetch, so a failed
fetch or publish leaves the fingerprint seen and later events on the same
path are skipped. But the push path fingerprints the raw message id while
the delta path fingerprints "delta:" ++ id, so a failed push attempt does
not block a later delta entry for the same message — the cross-path half
of the claim fails.
-/

theorem IsNew_fresh (kv : List (String × KVEntry)) (now : Nat) (F : String)
    (h : kvLookup kv now (Dedup.keyNamespace ++ F) = none) :
    (Dedup.IsNew kv now F).1 = true ∧
    ∀ later : Nat, later < now + Dedup.DefaultTTL →
      kvLookup (Dedup.IsNew kv now F).2 later (Dedup.keyNamespace ++ F) =
        some ⟨"1", now + Dedup.DefaultTTL⟩ := by
  unfold Dedup.IsNew setNX
  rw [h]
  refine ⟨rfl, fun later hlt => ?_⟩
  simp [kvLookup, List.find?]
  exact hlt

theorem IsNew_dup (kv : List (String × KVEntry)) (now : Nat) (F : String) (e : KVEntry)
    (h : kvLookup kv now (Dedup.keyNamespace ++ F) = some e) :
    Dedup.IsNew kv now F = (false, kv) := by
  unfold Dedup.IsNew setNX
  rw [h]

theorem dedupFetchPublish_fresh (fetchOf : String → FetchOutcome) (publishOK : String → Bool)
    (kv : List (String × KVEntry)) (now : Nat) (fp m : String)
    (hfresh : kvLookup kv now (Dedup.keyNamespace ++ fp) = none) :
    Event.dedupMarked fp ∈ (dedupFetchPublish fetchOf publishOK true kv now fp m).1 ∧
    (dedupFetchPublish fetchOf publishOK true kv now fp m).2 = (Dedup.IsNew kv now fp).2 ∧
    (fetchOf m = FetchOutcome.err ∨ publishOK m = false →
      Event.published m ∉ (dedupFetchPublish fetchOf publishOK true kv now fp m).1) := by
  have h1 : (Dedup.IsNew kv now fp).1 = true := (IsNew_fresh kv now fp hfresh).1
  unfold dedupFetchPublish
  rcases hf : fetchOf m <;> cases hp : publishOK m <;>
    simp [h1, hf, hp]

theorem dedupFetchPublish_dup (fetchOf : String → FetchOutcome) (publishOK : String → Bool)
    (kv : List (String × KVEntry)) (now : Nat) (fp m : String) (e : KVEntry)
    (hlive : kvLookup kv now (Dedup.keyNamespace ++ fp) = some e) :
    dedupFetchPublish fetchOf publishOK true kv now fp m =
      ([Event.dedupDuplicate fp], kv) := by
  unfold dedupFetchPublish
  rw [IsNew_dup kv now fp e hlive]
  simp

theorem processNotification_passes (db : List Subscription.Record)
    (fetchOf : String → FetchOutcome) (publishOK : String → Bool) (dedupOK : Bool)
    (kv : List (String × KVEntry)) (now : Nat) (n : Webhook.ChangeNotification)
    (userID messageID : String)
    (hCreated : n.changeType = "created")
    (hParse : Webhook.parseResource n.resource = some (userID, messageID))
    (hOK : ∀ rec, Subscription.findByKey db n.tenantID userID = some rec →
      n.clientState ≠ "" → rec.clientState = n.clientState) :
    ∃ pre : List Event,
      (pre = [] ∨ pre = [Event.touchedPush n.tenantID userID]) ∧
      Webhook.processNotification db true fetchOf publishOK dedupOK kv now n =
        (pre ++ (dedupFetchPublish fetchOf publishOK dedupOK kv now messageID messageID).1,
         (dedupFetchPublish fetchOf publishOK dedupOK kv now messageID messageID).2) := by
  cases hrec : Subscription.findByKey db n.tenantID userID with
  | none =>
    refine ⟨[], Or.inl rfl, ?_⟩
    rw [processNotification_absent db fetchOf publishOK dedupOK kv now n userID messageID
      hCreated hParse hrec]
    rfl
  | some rec =>
    refine ⟨[Event.touchedPush n.tenantID userID], Or.inr rfl, ?_⟩
    rw [processNotification_found db fetchOf publishOK dedupOK kv now n userID messageID rec
      hCreated hParse hrec]
    have hmm : (n.clientState != "" && rec.clientState != n.clientState) = false := by
      by_cases hcs : n.clientState = ""
      · simp [hcs]
      · simp [hcs, hOK rec hrec hcs]
    rw [hmm]
    simp

/-- C10 counterexample: the push attempt for message m1 passes the dedup
check (recording the raw fingerprint m1) and its fetch fails, so nothing is
published; a delta entry bearing the same message id inside the 24-hour
window checks the differently namespaced fingerprint delta:m1, is not
skipped, and publishes the message through the delta dedup-guarded path —
contradicting the claim that the message is never published. -/
theorem C10_cross_path_counterexample :
    (Webhook.processNotification [] true (fun _ => FetchOutcome.err) (fun _ => true)
      true [] 0 notifNoRecord).1 = [Event.dedupMarked "m1", Event.fetchAttempt "m1"] ∧
    Event.published "m1" ∉
      (Webhook.processNotification [] true (fun _ => FetchOutcome.err) (fun _ => true)
        true [] 0 notifNoRecord).1 ∧
    (100 : Nat) < 0 + Dedup.DefaultTTL ∧
    Event.published "m1" ∈
      (Delta.deltaMsgStep envAllOK 100
        (Webhook.processNotification [] true (fun _ => FetchOutcome.err) (fun _ => true)
          true [] 0 notifNoRecord).2 "m1").1 := by decide

/-- C10 amended: on both dedup-guarded paths the fingerprint is recorded
before the fetch is attempted, so after a failed fetch or publish the entry
stays recorded and any later event on the same path bearing the same
message id within the TTL is skipped without fetch or publish. The push
half covers every notification that reaches the dedup check — whether the
matching record is absent, the echoed client state is empty, or it equals
the stored secret — and suppresses any later notification bearing the
same message id whose own spoof gate passes. (Cross-path, the fingerprints
differ by the delta namespace and do not block each other.) -/
theorem C10_fingerprint_recorded_before_fetch :
    (∀ (env : Delta.SyncEnv) (now : Nat) (kv : List (String × KVEntry)) (id : String),
      env.dedupOK = true →
      kvLookup kv now (Dedup.keyNamespace ++ ("delta:" ++ id)) = none →
      Event.dedupMarked ("delta:" ++ id) ∈ (Delta.deltaMsgStep env now kv id).1 ∧
      (∀ later : Nat, later < now + Dedup.DefaultTTL →
        kvLookup (Delta.deltaMsgStep env now kv id).2 later
          (Dedup.keyNamespace ++ ("delta:" ++ id)) = some ⟨"1", now + Dedup.DefaultTTL⟩) ∧
      (env.fetchOf id = FetchOutcome.err ∨ env.publishOK id = false →
        Event.published id ∉ (Delta.deltaMsgStep env now kv id).1) ∧
      (∀ later : Nat, later < now + Dedup.DefaultTTL →
        Delta.deltaMsgStep env later (Delta.deltaMsgStep env now kv id).2 id =
          ([Event.dedupDuplicate ("delta:" ++ id)], (Delta.deltaMsgStep env now kv id).2))) ∧
    (∀ (db : List Subscription.Record) (fetchOf : String → FetchOutcome)
        (publishOK : String → Bool) (kv : List (String × KVEntry)) (now : Nat)
        (n : Webhook.ChangeNotification) (userID messageID : String),
      n.changeType = "created" →
      Webhook.parseResource n.resource = some (userID, messageID) →
      (∀ rec, Subscription.findByKey db n.tenantID userID = some rec →
        n.clientState ≠ "" → rec.clientState = n.clientState) →
      kvLookup kv now (Dedup.keyNamespace ++ messageID) = none →
      Event.dedupMarked messageID ∈
        (Webhook.processNotification db true fetchOf publishOK true kv now n).1 ∧
      (∀ later : Nat, later < now + Dedup.DefaultTTL →
        kvLookup (Webhook.processNotification db true fetchOf publishOK true kv now n).2 later
          (Dedup.keyNamespace ++ messageID) = some ⟨"1", now + Dedup.DefaultTTL⟩) ∧
      (fetchOf messageID = FetchOutcome.err ∨ publishOK messageID = false →
        Event.published messageID ∉
          (Webhook.processNotification db true fetchOf publishOK true kv now n).1) ∧
      (∀ (n2 : Webhook.ChangeNotification) (userID2 : String) (later : Nat),
        n2.changeType = "created" →
        Webhook.parseResource n2.resource = some (userID2, messageID) →
        (∀ rec, Subscription.findByKey db n2.tenantID userID2 = some rec →
          n2.clientState ≠ "" → rec.clientState = n2.clientState) →
        later < now + Dedup.DefaultTTL →
        (Webhook.processNotification db true fetchOf publishOK true
            (Webhook.processNotification db true fetchOf publishOK true kv now n).2
            later n2).2 =
          (Webhook.processNotification db true fetchOf publishOK true kv now n).2 ∧
        Event.dedupDuplicate messageID ∈
          (Webhook.processNotification db true fetchOf publishOK true
            (Webhook.processNotification db true fetchOf publishOK true kv now n).2
            later n2).1 ∧
        Event.fetchAttempt messageID ∉
          (Webhook.processNotification db true fetchOf publishOK true
            (Webhook.processNotification db true fetchOf publishOK true kv now n).2
            later n2).1 ∧
        Event.published messageID ∉
          (Webhook.processNotification db true fetchOf publishOK true
            (Webhook.processNotification db true fetchOf publishOK true kv now n).2
            later n2).1)) := by
  constructor
  · intro env now kv id hdok hfresh
    have hstep : Delta.deltaMsgStep env now kv id =
        dedupFetchPublish env.fetchOf env.publishOK true kv now ("delta:" ++ id) id := by
      rw [Delta.deltaMsgStep, hdok]
    have hmain := dedupFetchPublish_fresh env.fetchOf env.publishOK kv now ("delta:" ++ id) id
      hfresh
    have hkvlater : ∀ later : Nat, later < now + Dedup.DefaultTTL →
        kvLookup (Delta.deltaMsgStep env now kv id).2 later
          (Dedup.keyNamespace ++ ("delta:" ++ id)) = some ⟨"1", now + Dedup.DefaultTTL⟩ := by
      intro later hlt
      rw [hstep, hmain.2.1]
      exact (IsNew_fresh kv now ("delta:" ++ id) hfresh).2 later hlt
    refine ⟨by rw [hstep]; exact hmain.1, hkvlater, by rw [hstep]; exact hmain.2.2, ?_⟩
    intro later hlt
    have hlive := hkvlater later hlt
    rw [Delta.deltaMsgStep, hdok]
    exact dedupFetchPublish_dup env.fetchOf env.publishOK _ later ("delta:" ++ id) id _ hlive
  · intro db fetchOf publishOK kv now n userID messageID hCreated hParse hOK hfresh
    obtain ⟨pre, hpre, heq⟩ := processNotification_passes db fetchOf publishOK true kv now n
      userID messageID hCreated hParse hOK
    have hmain := dedupFetchPublish_fresh fetchOf publishOK kv now messageID messageID hfresh
    have hkv2 : (Webhook.processNotification db true fetchOf publishOK true kv now n).2 =
        (Dedup.IsNew kv now messageID).2 := by
      rw [heq]
      exact hmain.2.1
    have hkvlater : ∀ later : Nat, later < now + Dedup.DefaultTTL →
        kvLookup (Webhook.processNotification db true fetchOf publishOK true kv now n).2 later
          (Dedup.keyNamespace ++ messageID) = some ⟨"1", now + Dedup.DefaultTTL⟩ := by
      intro later hlt
      rw [hkv2]
      exact (IsNew_fresh kv now messageID hfresh).2 later hlt
    refine ⟨?_, hkvlater, ?_, ?_⟩
    · rw [heq]
      exact List.mem_append.mpr (Or.inr hmain.1)
    · intro hcond
      rw [heq]
      simp only [List.mem_append]
      rintro (h | h)
      · rcases hpre with hp | hp <;> subst hp <;> simp at h
      · exact hmain.2.2 hcond h
    · intro n2 userID2 later hCreated2 hParse2 hOK2 hlt
      obtain ⟨pre2, hpre2, heq2⟩ := processNotification_passes db fetchOf publishOK true
        (Webhook.processNotification db true fetchOf publishOK true kv now n).2 later n2
        userID2 messageID hCreated2 hParse2 hOK2
      have hlive := hkvlater later hlt
      have hdup := dedupFetchPublish_dup fetchOf publishOK
        (Webhook.processNotification db true fetchOf publishOK true kv now n).2 later
        messageID messageID _ hlive
      rw [heq2, hdup]
      refine ⟨rfl, by simp, ?_, ?_⟩
      · rcases hpre2 with hp | hp <;> subst hp <;> simp
      · rcases hpre2 with hp | hp <;> subst hp <;> simp

/-- C10 witness: a delta entry for m1 whose fetch fails marks delta:m1 and
publishes nothing, and the same entry processed again at time 50 is skipped
as a duplicate with no fetch; a push notification for m1 with a matching
record present (stored secret echoed correctly) likewise marks m1, and with
its fetch failing publishes nothing. -/
theorem C10_fingerprint_recorded_before_fetch_witness :
    Event.dedupMarked "delta:m1" ∈ (Delta.deltaMsgStep envFetchErr 0 [] "m1").1 ∧
    Event.published "m1" ∉ (Delta.deltaMsgStep envFetchErr 0 [] "m1").1 ∧
    Delta.deltaMsgStep envFetchErr 50 (Delta.deltaMsgStep envFetchErr 0 [] "m1").2 "m1" =
      ([Event.dedupDuplicate "delta:m1"], (Delta.deltaMsgStep envFetchErr 0 [] "m1").2) ∧
    Event.dedupMarked "m1" ∈
      (Webhook.processNotification [recT1U1] true (fun _ => FetchOutcome.err) (fun _ => true)
        true [] 0 notifGoodState).1 ∧
    Event.published "m1" ∉
      (Webhook.processNotification [recT1U1] true (fun _ => FetchOutcome.err) (fun _ => true)
        true [] 0 notifGoodState).1 := by
  have hd := C10_fingerprint_recorded_before_fetch.1 envFetchErr 0 [] "m1" (by decide) (by decide)
  have hOK : ∀ rec, Subscription.findByKey [recT1U1] notifGoodState.tenantID "u1" = some rec →
      notifGoodState.clientState ≠ "" → rec.clientState = notifGoodState.clientState := by
    intro rec hrec _
    have h0 : Subscription.findByKey [recT1U1] notifGoodState.tenantID "u1" =
        some recT1U1 := by decide
    rw [h0] at hrec
    injection hrec with h
    rw [← h]
    decide
  have hp := C10_fingerprint_recorded_before_fetch.2 [recT1U1] (fun _ => FetchOutcome.err)
    (fun _ => true) [] 0 notifGoodState "u1" "m1" (by decide) (by decide) hOK (by decide)
  exact ⟨hd.1, hd.2.2.1 (Or.inl (by decide)), hd.2.2.2 50 (by decide),
    hp.1, hp.2.2.1 (Or.inl rfl)⟩
